import Mathlib

/-!
Verification of the evidence-grounding and guard subsystem of `lrrit_llm`.

Text is modelled as `List Char`.  The Python functions from
`src/lrrit_llm/laj/laj_meta.py` and the dimension agents under
`src/lrrit_llm/agents/` are embedded as executable Lean definitions,
restricted to the ASCII behaviour of the Python string/regex primitives
(`str.lower`, `\s`, `\w`, `string.punctuation`), plus the specific
non-ASCII code points the code itself names (soft hyphen, curly quotes,
en/em dashes).
-/

namespace Lrrit

/-- Python `\s` on the ASCII range: space, tab, newline, carriage return,
vertical tab, form feed. -/
def isPySpace (c : Char) : Bool :=
  c = ' ' || c = '\t' || c = '\n' || c = '\r' || c = '\x0b' || c = '\x0c'

/-- Python `\w` on the ASCII range: letters, digits, underscore. -/
def isPyWord (c : Char) : Bool :=
  c.isAlpha || c.isDigit || c = '_'

/-- Membership in Python `string.punctuation`
(exactly the ASCII code points 33-47, 58-64, 91-96, 123-126). -/
def isPunct (c : Char) : Bool :=
  (33 ≤ c.toNat && c.toNat ≤ 47) || (58 ≤ c.toNat && c.toNat ≤ 64) ||
  (91 ≤ c.toNat && c.toNat ≤ 96) || (123 ≤ c.toNat && c.toNat ≤ 126)

/-- A character matched by `[a-z0-9]`. -/
def isLowerAlnum (c : Char) : Bool :=
  (97 ≤ c.toNat && c.toNat ≤ 122) || (48 ≤ c.toNat && c.toNat ≤ 57)

/-- A character matched by `\d` (ASCII digit). -/
def isDigitChar (c : Char) : Bool :=
  48 ≤ c.toNat && c.toNat ≤ 57

/-- Python `str.strip()`: drop leading and trailing whitespace. -/
def stripL (s : List Char) : List Char :=
  ((s.dropWhile isPySpace).reverse.dropWhile isPySpace).reverse

/-- The per-character replacements of `_canon`: curly double quotes
(U+201C/U+201D) to `"`, curly single quotes (U+2018/U+2019) to `'`,
en/em dashes (U+2013/U+2014) to `-`. -/
def normChar (c : Char) : Char :=
  if c = '“' || c = '”' then '"'
  else if c = '‘' || c = '’' then Char.ofNat 39
  else if c = '–' || c = '—' then '-'
  else c

/-- Head of a pending `(\w)` group: a word character and the remainder. -/
def matchWordHead : List Char → Option (Char × List Char)
  | [] => none
  | d :: tail => if isPyWord d then some (d, tail) else none

/-- One attempted match of the tail of `_HYPHEN_LINEBREAK_RE`
(`(\w)-\s+(\w)`) just after a word character: a hyphen, one or more
whitespace characters, then a word character `d`.  Returns `d` and the
remainder after it. -/
def gapSplit : List Char → Option (Char × List Char)
  | hy :: c :: rest =>
    if hy = '-' && isPySpace c then matchWordHead ((c :: rest).dropWhile isPySpace)
    else none
  | _ => none

/-- `_HYPHEN_LINEBREAK_RE.sub(r"\1\2", s)`: left-to-right, non-overlapping
replacement of `(\w)-\s+(\w)` by the two word characters; scanning resumes
after each match, as `re.sub` does.  Fuel-indexed so the definition is
structural: each recursive call strictly shortens the list, so fuel equal
to the input length never runs out. -/
def dehyphF : Nat → List Char → List Char
  | 0, s => s
  | _ + 1, [] => []
  | fuel + 1, c :: rest =>
    if isPyWord c then
      match gapSplit rest with
      | some (d, tail) => c :: d :: dehyphF fuel tail
      | none => c :: dehyphF fuel rest
    else c :: dehyphF fuel rest

def dehyph (s : List Char) : List Char := dehyphF s.length s

/-- Helper for `wsCollapse`: the flag records whether the previous
character was whitespace (i.e. we are inside a run already replaced). -/
def wsCollapseAux : Bool → List Char → List Char
  | _, [] => []
  | prev, c :: rest =>
    if isPySpace c then
      if prev then wsCollapseAux true rest else ' ' :: wsCollapseAux true rest
    else c :: wsCollapseAux false rest

/-- `_WS_RE.sub(" ", s)`: replace each maximal nonempty run of whitespace
with a single space. -/
def wsCollapse (s : List Char) : List Char := wsCollapseAux false s

/-- `_canon(s)` from `laj_meta.py`: strip, drop soft hyphens, normalise
curly quotes and dashes, rejoin hyphen-linebreak splits, lower-case,
replace punctuation by spaces, collapse whitespace and strip. -/
def canon (s : List Char) : List Char :=
  let s1 := stripL s
  let s2 := s1.filter (fun c => c ≠ '­')
  let s3 := s2.map normChar
  let s4 := dehyph s3
  let s5 := s4.map Char.toLower
  let s6 := s5.map (fun c => if isPunct c then ' ' else c)
  stripL (wsCollapse s6)

/-- `_compact(s)`: `_canon` then remove everything outside `[a-z0-9]`. -/
def compact (s : List Char) : List Char :=
  (canon s).filter isLowerAlnum

/-- Helper for `tokens`: split into maximal runs of `[a-z0-9]`,
accumulating the current run reversed. -/
def tokensAux : List Char → List Char → List (List Char)
  | [], acc => if acc.isEmpty then [] else [acc.reverse]
  | c :: rest, acc =>
    if isLowerAlnum c then tokensAux rest (c :: acc)
    else if acc.isEmpty then tokensAux rest []
    else acc.reverse :: tokensAux rest []

/-- `_tokens(s)`: `_TOKEN_RE.findall(_canon(s))` with pattern `[a-z0-9]+`. -/
def tokens (s : List Char) : List (List Char) :=
  tokensAux (canon s) []

/-- The inner scan of `_token_fuzzy_match`: walk the window left to right,
advancing into the remaining quote tokens on each equality, counting hits;
the Python loop's `hits` always equals its `j`, and the early `break` when
the quote is exhausted changes nothing observable. -/
def inOrderHits : List (List Char) → List (List Char) → Nat
  | _, [] => 0
  | [], _ :: _ => 0
  | q :: qs, t :: ts =>
    if t = q then inOrderHits qs ts + 1 else inOrderHits (q :: qs) ts

/-- `_token_fuzzy_match(quote, block)` with the default arguments used by
`quote_matches_block` (`min ratio 0.80`, `slack 10`).  The float test
`hits / len(qt) >= 0.80` is modelled as the exact rational comparison
`5 * hits >= 4 * len(qt)`: IEEE division is correctly rounded, so for the
token counts reachable here the two comparisons agree.  The Python range
bound `max(1, len(bt) - win + 1)` coincides with the truncated-subtraction
form `max 1 (bt.length - win + 1)` for every value of `bt.length`. -/
def token_fuzzy_match (quote block : List Char) : Bool :=
  let qt := tokens quote
  let bt := tokens block
  if qt.length < 6 then false
  else
    let win := qt.length + 10
    (List.range (max 1 (bt.length - win + 1))).any (fun i =>
      decide (4 * qt.length ≤ 5 * inOrderHits qt ((bt.drop i).take win)))

/-- Python list/string prefix test. -/
def isPrefixL : List Char → List Char → Bool
  | [], _ => true
  | _ :: _, [] => false
  | a :: as, b :: bs => a = b && isPrefixL as bs

/-- Python substring test `needle in hay` on the modelled strings. -/
def isSubstr : List Char → List Char → Bool
  | needle, [] => needle.isEmpty
  | needle, c :: rest => isPrefixL needle (c :: rest) || isSubstr needle rest

/-- `quote_matches_block(quote, block)`: canonical containment, then
compact containment, then the fuzzy token test, short-circuiting. -/
def quote_matches_block (quote block : List Char) : Bool :=
  if quote.isEmpty || block.isEmpty then false
  else if !(canon quote).isEmpty && isSubstr (canon quote) (canon block) then true
  else if !(compact quote).isEmpty && isSubstr (compact quote) (compact block) then true
  else token_fuzzy_match quote block

/-! ## Data model: agent verdicts and evidence items

A dimension agent's parsed output is a Python dict with keys
`rating`, `rationale`, `evidence` (list of `{id, quote, evidence_type}`)
and `uncertainty`; `_normalise_obj` guarantees the shape.  The guard
passes only compare `rating`/`evidence_type` against fixed string
constants, so modelling the string-valued fields as `List Char` is
faithful (a missing/None rating behaves like any string different from
the constants). -/

structure EvidenceItem where
  id : List Char
  quote : List Char
  evidence_type : List Char
deriving DecidableEq

structure AgentVerdict where
  rating : List Char
  rationale : List Char
  evidence : List EvidenceItem
  uncertainty : Bool
deriving DecidableEq

/-- Python `str.lower()` on the ASCII range (`Char.toLower` lowers
exactly A-Z). -/
def pyLower (s : List Char) : List Char := s.map Char.toLower

/-- `any(c in q for c in cues)`: some cue is a substring of `q`. -/
def hasCue (cues : List (List Char)) (q : List Char) : Bool :=
  cues.any (fun c => isSubstr c q)

/-- `any(e.get("evidence_type") == "positive" for e in evidence)`. -/
def hasPosItem (evidence : List EvidenceItem) : Bool :=
  evidence.any (fun e => decide (e.evidence_type = "positive".data))

/-- `any(e.get("evidence_type") == "negative" for e in evidence)`. -/
def hasNegItem (evidence : List EvidenceItem) : Bool :=
  evidence.any (fun e => decide (e.evidence_type = "negative".data))

/-! ## Guard passes of the dimension agents

Each Python `_apply_guards` only ever assigns `result["uncertainty"] =
True` (under various conditions) and never writes any other key, so the
final value of `uncertainty` is the disjunction of the original value
with every triggered condition; the embeddings below use that
disjunction directly. -/

/-- `D2SystemsAgent._apply_guards` (`agents/d2_systems.py`). -/
def d2ApplyGuards (r : AgentVerdict) : AgentVerdict :=
  if r.evidence.isEmpty then { r with uncertainty := true }
  else
    { r with uncertainty := r.uncertainty
        || (decide (r.rating = "GOOD".data) && !hasPosItem r.evidence)
        || (decide (r.rating = "LITTLE".data) && !hasNegItem r.evidence) }

/-- `D3LearningActionsAgent._apply_guards` (`agents/d3_learning_actions.py`);
its body is textually identical to D2's. -/
def d3ApplyGuards (r : AgentVerdict) : AgentVerdict :=
  if r.evidence.isEmpty then { r with uncertainty := true }
  else
    { r with uncertainty := r.uncertainty
        || (decide (r.rating = "GOOD".data) && !hasPosItem r.evidence)
        || (decide (r.rating = "LITTLE".data) && !hasNegItem r.evidence) }

/-- `D4BlameLanguageAgent.BLAME_CUES`. -/
def BLAME_CUES : List (List Char) :=
  ["failed".data, "should have".data, "should've".data, "did not".data,
   "didn't".data, "non-compliance".data, "neglig".data, "careless".data,
   "incompet".data, "to blame".data, "fault".data]

/-- `D4BlameLanguageAgent.PERSON_TOKENS`. -/
def PERSON_TOKENS : List (List Char) :=
  ["staff".data, "team".data, "sho".data, "doctor".data, "nurse".data,
   "consultant".data, "they".data, "he".data, "she".data, "we".data]

/-- The per-item check of D4's guard loop: a "negative" item whose
lower-cased quote contains neither a blame cue nor a person token. -/
def d4NegUnsupported (e : EvidenceItem) : Bool :=
  decide (e.evidence_type = "negative".data) &&
    !hasCue BLAME_CUES (pyLower e.quote) && !hasCue PERSON_TOKENS (pyLower e.quote)

/-- `D4BlameLanguageAgent._apply_guards` (`agents/d4_blame.py`). -/
def d4ApplyGuards (r : AgentVerdict) : AgentVerdict :=
  if r.evidence.isEmpty then { r with uncertainty := true }
  else
    { r with uncertainty := r.uncertainty
        || r.evidence.any d4NegUnsupported
        || (decide (r.rating = "GOOD".data) && !hasPosItem r.evidence)
        || (decide (r.rating = "LITTLE".data) && !hasNegItem r.evidence) }

/-- `D5LocalRationalityAgent.LOCAL_RATIONALE_CUES`. -/
def LOCAL_RATIONALE_CUES : List (List Char) :=
  ["at the time".data, "based on".data, "given".data, "in the context".data,
   "initially".data, "working diagnosis".data, "appeared".data,
   "interpreted".data, "thought".data, "believed".data, "concern".data,
   "uncertain".data, "uncertainty".data, "ambigu".data,
   "limited information".data, "competing".data, "priority".data,
   "trade-off".data, "capacity".data, "availability".data, "handover".data,
   "pathway".data, "access".data, "resource".data, "workload".data,
   "pressure".data]

/-- `D5LocalRationalityAgent.HINDSIGHT_CUES`. -/
def HINDSIGHT_CUES : List (List Char) :=
  ["should have".data, "should've".data, "failed to".data, "did not".data,
   "didn't".data, "obvious".data, "clearly".data, "in hindsight".data,
   "neglig".data, "incompet".data, "to blame".data, "fault".data]

/-- `D5LocalRationalityAgent.COUNTERFACTUAL_CUES`. -/
def COUNTERFACTUAL_CUES : List (List Char) :=
  ["no certainty".data, "cannot determine".data, "can't determine".data,
   "unclear whether".data, "we cannot determine".data, "no way of knowing".data]

/-- `D5LocalRationalityAgent.REASSURANCE_CUES`. -/
def REASSURANCE_CUES : List (List Char) :=
  ["timely".data, "appropriate".data, "good care".data, "managed well".data]

/-- The per-item escalation conditions of D5's polarity loop, as the
disjunction of the `if`/`elif` branches: for a negative item,
counterfactual cue present, or else no hindsight cue; for a positive
item, reassurance without a local-rationality cue, or else no
local-rationality cue; and for every item a final check that the quote
contains some local-rationality cue. -/
def d5ItemEscalates (e : EvidenceItem) : Bool :=
  let q := pyLower e.quote
  (decide (e.evidence_type = "negative".data) &&
     (hasCue COUNTERFACTUAL_CUES q || !hasCue HINDSIGHT_CUES q))
  || (decide (e.evidence_type = "positive".data) &&
       ((hasCue REASSURANCE_CUES q && !hasCue LOCAL_RATIONALE_CUES q) ||
         !hasCue LOCAL_RATIONALE_CUES q))
  || !hasCue LOCAL_RATIONALE_CUES q

/-- `D5LocalRationalityAgent._apply_guards` (`agents/d5_local_rationality.py`). -/
def d5ApplyGuards (r : AgentVerdict) : AgentVerdict :=
  if r.evidence.isEmpty then { r with uncertainty := true }
  else
    { r with uncertainty := r.uncertainty
        || (decide (r.rating = "GOOD".data) && !hasPosItem r.evidence)
        || (decide (r.rating = "LITTLE".data) && !hasNegItem r.evidence)
        || r.evidence.any d5ItemEscalates }

/-- The guard passes of the four dimension agents that define
`_apply_guards` (D2, D3, D4, D5). -/
def dimensionGuards : List (AgentVerdict → AgentVerdict) :=
  [d2ApplyGuards, d3ApplyGuards, d4ApplyGuards, d5ApplyGuards]

/-! ## Evidence pack and the evidence resolver (`LaJMetaEvaluator`)

Only the fields read by `_resolve_block` / `_build_evidence_context`
are modelled (`chunk_id`/`text` of a text chunk, `table_id` and the
non-optional `text_fallback` of a table; the provenance/hash fields are
never consulted by this subsystem). -/

structure TextChunk where
  chunk_id : List Char
  text : List Char
deriving DecidableEq

structure TableEvidence where
  table_id : List Char
  text_fallback : List Char
deriving DecidableEq

structure EvidencePack where
  text_chunks : List TextChunk
  tables : List TableEvidence
deriving DecidableEq

/-- Take exactly `n` ASCII digits, or fail. -/
def takeExactDigits : Nat → List Char → Option (List Char × List Char)
  | 0, s => some ([], s)
  | _ + 1, [] => none
  | n + 1, c :: rest =>
    if isDigitChar c then
      (takeExactDigits n rest).map (fun p => (c :: p.1, p.2))
    else none

/-- Take greedily up to `n` ASCII digits. -/
def takeDigitsUpTo : Nat → List Char → List Char
  | 0, _ => []
  | _ + 1, [] => []
  | n + 1, c :: rest =>
    if isDigitChar c then c :: takeDigitsUpTo n rest else []

/-- After the leading `p`/`P` of `_CHUNK_RE` (`p\d{1,3}_(?:c|t)\d{1,3}`,
case-insensitive): exactly `k` digits, an underscore, `c`/`t` in either
case, then one to three digits taken greedily. -/
def matchChunkTail (k : Nat) (s : List Char) : Option (List Char) :=
  match takeExactDigits k s with
  | none => none
  | some (ds, rest) =>
    match rest with
    | u :: x :: rest2 =>
      if u = '_' && (x = 'c' || x = 'C' || x = 't' || x = 'T') then
        let ds2 := takeDigitsUpTo 3 rest2
        if ds2.isEmpty then none else some (ds ++ u :: x :: ds2)
      else none
    | _ => none

/-- An attempted match of `_CHUNK_RE` at the start of `s`.  The greedy
`\d{1,3}` with backtracking tries three, then two, then one digit before
the underscore. -/
def matchChunkAt (s : List Char) : Option (List Char) :=
  match s with
  | [] => none
  | p :: rest =>
    if p = 'p' || p = 'P' then
      match matchChunkTail 3 rest with
      | some m => some (p :: m)
      | none =>
        match matchChunkTail 2 rest with
        | some m => some (p :: m)
        | none =>
          match matchChunkTail 1 rest with
          | some m => some (p :: m)
          | none => none
    else none

/-- `_extract_chunk_id`: `_CHUNK_RE.search`, i.e. the match at the
leftmost start position where one exists (the empty string short-circuit
of the Python function coincides with the failed search). -/
def extractChunkId : List Char → Option (List Char)
  | [] => none
  | c :: rest =>
    match matchChunkAt (c :: rest) with
    | some m => some m
    | none => extractChunkId rest

/-- `LaJMetaEvaluator._resolve_block`: strip the id, extract the chunk
token, then (sequentially, as in the source) try the text-chunk
collection when the lowered token contains `_c`, falling through to the
table collection when it contains `_t`; first case-insensitive id match
wins.  `t.text_fallback or ""` is the identity on the modelled
non-optional string. -/
def resolveBlock (pack : EvidencePack) (evidence_id : List Char) : Option (List Char) :=
  let eid := stripL evidence_id
  if eid.isEmpty then none
  else
    match extractChunkId eid with
    | none => none
    | some cid =>
      let cidL := pyLower cid
      let viaText : Option (List Char) :=
        if isSubstr "_c".data cidL then
          (pack.text_chunks.find? (fun c => decide (pyLower c.chunk_id = cidL))).map
            TextChunk.text
        else none
      match viaText with
      | some t => some t
      | none =>
        if isSubstr "_t".data cidL then
          (pack.tables.find? (fun t => decide (pyLower t.table_id = cidL))).map
            TableEvidence.text_fallback
        else none

/-- The programmatic QA flags. -/
structure Flags where
  missing_evidence : Bool
  invalid_evidence_id : Bool
  quote_mismatch : Bool
deriving DecidableEq

/-- `f"[{eid}]\n{block}"`. -/
def formatBlock (eid block : List Char) : List Char :=
  '[' :: (eid ++ ']' :: '\n' :: block)

/-- Membership of an id in the `seen_ids` set. -/
def seenHas (seen : List (List Char)) (eid : List Char) : Bool :=
  seen.any (fun s => decide (s = eid))

/-- One iteration of the loop in `_build_evidence_context`, threading
`(flags, seen_ids, blocks)`. -/
def buildStep (pack : EvidencePack) (strict : Bool)
    (acc : Flags × List (List Char) × List (List Char)) (ev : EvidenceItem) :
    Flags × List (List Char) × List (List Char) :=
  let f := acc.1
  let seen := acc.2.1
  let blocks := acc.2.2
  let eid := stripL ev.id
  let quote := stripL ev.quote
  if eid.isEmpty then ({ f with invalid_evidence_id := true }, seen, blocks)
  else
    match resolveBlock pack eid with
    | none => ({ f with invalid_evidence_id := true }, seen, blocks)
    | some block =>
      let f' :=
        if strict && !quote.isEmpty && !quote_matches_block quote block then
          { f with quote_mismatch := true }
        else f
      if seenHas seen eid then (f', seen, blocks)
      else (f', eid :: seen, blocks ++ [formatBlock eid block])

/-- `LaJMetaEvaluator._build_evidence_context`, returning the flags and
the list of per-id context blocks (the Python function returns their
`"\n\n"`-join; which blocks appear, and in which order, is exactly this
list). -/
def buildEvidenceContext (pack : EvidencePack) (evidence : List EvidenceItem)
    (strict : Bool) : Flags × List (List Char) :=
  if evidence.isEmpty then
    ({ missing_evidence := true, invalid_evidence_id := false, quote_mismatch := false }, [])
  else
    let start : Flags × List (List Char) × List (List Char) :=
      ({ missing_evidence := false, invalid_evidence_id := false, quote_mismatch := false },
        [], [])
    let acc := evidence.foldl (buildStep pack strict) start
    (acc.1, acc.2.2)

/-! ## Meta-evaluator response guards -/

structure MetricEntry where
  metric_id : List Char
  score : List Char
  notes : List Char
deriving DecidableEq

/-- `_parse_response` output after `_normalise`: the raw `overall` value
(possibly absent) and the metric list. -/
structure ParsedResponse where
  overall : Option (List Char)
  metrics : List MetricEntry
deriving DecidableEq

structure GuardedResponse where
  overall : Option (List Char)
  metrics : List MetricEntry
deriving DecidableEq

/-- `LaJMetaEvaluator.METRICS`: the fixed metric basket. -/
def METRICS : List (List Char × List Char) :=
  [("M1".data, "Rubric Fidelity".data),
   ("M2".data, "Evidence Grounding".data),
   ("M3".data, "Reasoning Quality & Internal Coherence".data),
   ("M4".data, "Values Alignment (PSIRF/LRRIT)".data),
   ("M5".data, "Transparency & Uncertainty Handling".data),
   ("M6".data, "Hallucination Screening".data)]

/-- `required = [mid for mid, _ in self.METRICS]`. -/
def requiredIds : List (List Char) := METRICS.map Prod.fst

/-- `severe = flags.get("invalid_evidence_id") or flags.get("quote_mismatch")`. -/
def severeFlags (f : Flags) : Bool := f.invalid_evidence_id || f.quote_mismatch

/-- The notes text written by the M6 clamp. -/
def m6ClampNotes : List Char :=
  "No programmatic grounding issues detected; treat as potential overreach rather than hallucination.".data

/-- `m_by_id`: the dict comprehension keyed by `metric_id` keeps, for each
id, the last entry with that id. -/
def mById (metrics : List MetricEntry) (mid : List Char) : Option MetricEntry :=
  (metrics.filter (fun m => decide (m.metric_id = mid))).getLast?

/-- The combined per-entry mutations of `_apply_guards` on the entry
stored under key `mid`: first the M6 FAIL→WARN clamp when no severe flag
is set, then the missing-evidence PASS→WARN floor on M2/M6.  The clamp
turns a FAIL into WARN, never PASS, so applying the two steps in this
order reproduces the sequential dict mutations of the source. -/
def guardEntry (f : Flags) (mid : List Char) (e : MetricEntry) : MetricEntry :=
  let e1 :=
    if decide (mid = "M6".data) && !severeFlags f && decide (e.score = "FAIL".data) then
      { e with score := "WARN".data, notes := m6ClampNotes }
    else e
  if f.missing_evidence && (decide (mid = "M2".data) || decide (mid = "M6".data))
      && decide (e1.score = "PASS".data) then
    { e1 with score := "WARN".data }
  else e1

/-- `LaJMetaEvaluator._apply_guards`.  The rebuild
`[m_by_id[mid] for mid in required]` raises `KeyError` when a required
metric id is absent; that hard failure is the `none` case. -/
def metaApplyGuards (res : ParsedResponse) (f : Flags) : Option GuardedResponse :=
  match requiredIds.mapM (fun mid => mById res.metrics mid) with
  | none => none
  | some entries =>
    let guarded := (requiredIds.zip entries).map (fun p => guardEntry f p.1 p.2)
    let overall :=
      if severeFlags f && decide (res.overall = some "PASS".data) then some "WARN".data
      else res.overall
    some { overall := overall, metrics := guarded }

/-! ## Claim theorems -/

/-- C1 (amended): for every quote `Q` and block `B` such that the
canonical form of `Q` is a *nonempty* substring of the canonical form of
`B`, `quote_matches_block Q B` is true (the canonical-containment test,
first of the three short-circuiting tests, already succeeds).  The
original claim fails only for degenerate quotes whose canonical form is
empty. -/
theorem canon_containment_matches (q b : List Char)
    (h1 : canon q ≠ []) (h2 : isSubstr (canon q) (canon b) = true) :
    quote_matches_block q b = true := by
  have hcq : (canon q).isEmpty = false := by
    cases hc : canon q with
    | nil => exact absurd hc h1
    | cons a as => rfl
  have hq : q.isEmpty = false := by
    cases q with
    | nil => exact absurd (show canon ([] : List Char) = [] from rfl) h1
    | cons a as => rfl
  have hb : b.isEmpty = false := by
    cases b with
    | nil =>
      rw [show canon ([] : List Char) = [] from rfl] at h2
      rw [show isSubstr (canon q) [] = (canon q).isEmpty from rfl, hcq] at h2
      exact absurd h2 (by decide)
    | cons a as => rfl
  simp [quote_matches_block, hq, hb, hcq, h2]

/-- C1 witness: a concrete hyphen-wrapped, case-varying containment. -/
theorem canon_containment_matches_witness :
    canon "patient was not reviewed".data ≠ [] ∧
    isSubstr (canon "patient was not reviewed".data)
      (canon "The pa-\ntient was NOT reviewed urgently.".data) = true ∧
    quote_matches_block "patient was not reviewed".data
      "The pa-\ntient was NOT reviewed urgently.".data = true :=
  ⟨by decide, by decide,
    canon_containment_matches _ _ (by decide) (by decide)⟩

/-- C1 counterexample: for the quote `"!"` and block `"a"`, the canonical
quote is empty, hence a substring of the canonical block, yet
`quote_matches_block` returns false — refuting the claim's universal
`canonical(Q)` substring `canonical(B)` ⇒ true. -/
theorem canon_containment_cex :
    isSubstr (canon "!".data) (canon "a".data) = true ∧
    quote_matches_block "!".data "a".data = false :=
  ⟨by decide, by decide⟩

/-- C2 (amended): the fuzzy test runs only when the quote has at least 6
tokens, and a window achieving an in-order hit ratio of at least 0.80
(`5*hits ≥ 4*n`) exists among the attempted windows; the attempted start
offsets are exactly those where a full window of length `W = n+10` fits
— except that when the block has fewer than `W` tokens the test is *not*
skipped: a single truncated window at offset 0 (the whole block token
list) is evaluated. -/
theorem token_fuzzy_match_characterization (q b : List Char) :
    token_fuzzy_match q b = true ↔
      6 ≤ (tokens q).length ∧
      ∃ i, (i + ((tokens q).length + 10) ≤ (tokens b).length ∨
            (i = 0 ∧ (tokens b).length < (tokens q).length + 10)) ∧
        4 * (tokens q).length ≤
          5 * inOrderHits (tokens q) (((tokens b).drop i).take ((tokens q).length + 10)) := by
  by_cases h6 : (tokens q).length < 6
  · simp only [token_fuzzy_match, if_pos h6]
    constructor
    · intro h; exact absurd h (by decide)
    · rintro ⟨h, -⟩; omega
  · simp only [token_fuzzy_match, if_neg h6, List.any_eq_true, List.mem_range,
      decide_eq_true_eq]
    constructor
    · rintro ⟨i, hi, hp⟩
      exact ⟨by omega, i, by omega, hp⟩
    · rintro ⟨-, i, hcase, hp⟩
      exact ⟨i, by omega, hp⟩

/-- C2 counterexample: a 6-token quote against a 7-token block (shorter
than `W = 16`): both containment tests fail, yet the fuzzy test fires on
the truncated offset-0 window and the matcher reports a match — refuting
"block shorter than W ⇒ fuzzy test skipped, falls back to tests 1–2". -/
theorem token_fuzzy_short_block_cex :
    (tokens "aa bb cc dd ee zz ff".data).length <
      (tokens "aa bb cc dd ee ff".data).length + 10 ∧
    isSubstr (canon "aa bb cc dd ee ff".data)
      (canon "aa bb cc dd ee zz ff".data) = false ∧
    isSubstr (compact "aa bb cc dd ee ff".data)
      (compact "aa bb cc dd ee zz ff".data) = false ∧
    token_fuzzy_match "aa bb cc dd ee ff".data "aa bb cc dd ee zz ff".data = true ∧
    quote_matches_block "aa bb cc dd ee ff".data "aa bb cc dd ee zz ff".data = true :=
  ⟨by decide, by decide, by decide, by decide, by decide⟩

/-- C3: the generic guard rules R1-R3 hold for every dimension agent
that defines a guard pass (D2, D3, D4, D5): empty evidence forces
post-guard uncertainty for every rating; a GOOD rating with no
positive-typed item, and a LITTLE rating with no negative-typed item,
force post-guard uncertainty. -/
theorem guard_generic_rules :
    ∀ g ∈ dimensionGuards, ∀ v : AgentVerdict,
      (v.evidence = [] → (g v).uncertainty = true) ∧
      (v.rating = "GOOD".data →
        (∀ e ∈ v.evidence, ¬ e.evidence_type = "positive".data) →
        (g v).uncertainty = true) ∧
      (v.rating = "LITTLE".data →
        (∀ e ∈ v.evidence, ¬ e.evidence_type = "negative".data) →
        (g v).uncertainty = true) := by
  intro g hg v
  have hg' : g = d2ApplyGuards ∨ g = d3ApplyGuards ∨ g = d4ApplyGuards ∨
      g = d5ApplyGuards := by
    simpa [dimensionGuards] using hg
  have hposf : (∀ e ∈ v.evidence, ¬ e.evidence_type = "positive".data) →
      hasPosItem v.evidence = false := by
    intro hnone
    simp only [hasPosItem, List.any_eq_false, decide_eq_true_eq]
    exact hnone
  have hnegf : (∀ e ∈ v.evidence, ¬ e.evidence_type = "negative".data) →
      hasNegItem v.evidence = false := by
    intro hnone
    simp only [hasNegItem, List.any_eq_false, decide_eq_true_eq]
    exact hnone
  rcases hg' with rfl | rfl | rfl | rfl
  · refine ⟨fun hnil => ?_, fun hr hnone => ?_, fun hr hnone => ?_⟩
    · simp [d2ApplyGuards, hnil]
    · by_cases he : v.evidence.isEmpty
      · simp [d2ApplyGuards, he]
      · simp [d2ApplyGuards, he, hr, hposf hnone]
    · by_cases he : v.evidence.isEmpty
      · simp [d2ApplyGuards, he]
      · simp [d2ApplyGuards, he, hr, hnegf hnone]
  · refine ⟨fun hnil => ?_, fun hr hnone => ?_, fun hr hnone => ?_⟩
    · simp [d3ApplyGuards, hnil]
    · by_cases he : v.evidence.isEmpty
      · simp [d3ApplyGuards, he]
      · simp [d3ApplyGuards, he, hr, hposf hnone]
    · by_cases he : v.evidence.isEmpty
      · simp [d3ApplyGuards, he]
      · simp [d3ApplyGuards, he, hr, hnegf hnone]
  · refine ⟨fun hnil => ?_, fun hr hnone => ?_, fun hr hnone => ?_⟩
    · simp [d4ApplyGuards, hnil]
    · by_cases he : v.evidence.isEmpty
      · simp [d4ApplyGuards, he]
      · simp [d4ApplyGuards, he, hr, hposf hnone]
    · by_cases he : v.evidence.isEmpty
      · simp [d4ApplyGuards, he]
      · simp [d4ApplyGuards, he, hr, hnegf hnone]
  · refine ⟨fun hnil => ?_, fun hr hnone => ?_, fun hr hnone => ?_⟩
    · simp [d5ApplyGuards, hnil]
    · by_cases he : v.evidence.isEmpty
      · simp [d5ApplyGuards, he]
      · simp [d5ApplyGuards, he, hr, hposf hnone]
    · by_cases he : v.evidence.isEmpty
      · simp [d5ApplyGuards, he]
      · simp [d5ApplyGuards, he, hr, hnegf hnone]

/-- C3 witness: D4's guard on a GOOD verdict with empty evidence. -/
theorem guard_generic_rules_witness :
    (d4ApplyGuards
      { rating := "GOOD".data, rationale := [], evidence := [],
        uncertainty := false }).uncertainty = true :=
  (guard_generic_rules d4ApplyGuards (by simp [dimensionGuards])
    { rating := "GOOD".data, rationale := [], evidence := [],
      uncertainty := false }).1 rfl

/-! ### Normal forms of the guard passes

Each guard pass only ever ORs conditions into `uncertainty`; the
`*Esc` functions collect those conditions (with empty evidence folded in
as an always-true condition, matching the early return). -/

def d2Esc (v : AgentVerdict) : Bool :=
  if v.evidence.isEmpty then true
  else
    (decide (v.rating = "GOOD".data) && !hasPosItem v.evidence)
      || (decide (v.rating = "LITTLE".data) && !hasNegItem v.evidence)

def d4Esc (v : AgentVerdict) : Bool :=
  if v.evidence.isEmpty then true
  else
    v.evidence.any d4NegUnsupported
      || (decide (v.rating = "GOOD".data) && !hasPosItem v.evidence)
      || (decide (v.rating = "LITTLE".data) && !hasNegItem v.evidence)

def d5Esc (v : AgentVerdict) : Bool :=
  if v.evidence.isEmpty then true
  else
    (decide (v.rating = "GOOD".data) && !hasPosItem v.evidence)
      || (decide (v.rating = "LITTLE".data) && !hasNegItem v.evidence)
      || v.evidence.any d5ItemEscalates

theorem d2ApplyGuards_eq (v : AgentVerdict) :
    d2ApplyGuards v = { v with uncertainty := v.uncertainty || d2Esc v } := by
  by_cases he : v.evidence.isEmpty = true <;>
    simp [d2ApplyGuards, d2Esc, he, Bool.or_assoc]

theorem d3ApplyGuards_eq (v : AgentVerdict) :
    d3ApplyGuards v = { v with uncertainty := v.uncertainty || d2Esc v } := by
  by_cases he : v.evidence.isEmpty = true <;>
    simp [d3ApplyGuards, d2Esc, he, Bool.or_assoc]

theorem d4ApplyGuards_eq (v : AgentVerdict) :
    d4ApplyGuards v = { v with uncertainty := v.uncertainty || d4Esc v } := by
  by_cases he : v.evidence.isEmpty = true <;>
    simp [d4ApplyGuards, d4Esc, he, Bool.or_assoc]

theorem d5ApplyGuards_eq (v : AgentVerdict) :
    d5ApplyGuards v = { v with uncertainty := v.uncertainty || d5Esc v } := by
  by_cases he : v.evidence.isEmpty = true <;>
    simp [d5ApplyGuards, d5Esc, he, Bool.or_assoc]

theorem d2Esc_update (v : AgentVerdict) (x : Bool) :
    d2Esc { v with uncertainty := x } = d2Esc v := rfl

theorem d4Esc_update (v : AgentVerdict) (x : Bool) :
    d4Esc { v with uncertainty := x } = d4Esc v := rfl

theorem d5Esc_update (v : AgentVerdict) (x : Bool) :
    d5Esc { v with uncertainty := x } = d5Esc v := rfl

/-- C8: every dimension agent's guard pass preserves the rating, the
rationale and the entire evidence list (hence each item's id, quote and
polarity), and can only flip `uncertainty` from false to true. -/
theorem guard_preserves_fields :
    ∀ g ∈ dimensionGuards, ∀ v : AgentVerdict,
      (g v).rating = v.rating ∧ (g v).rationale = v.rationale ∧
      (g v).evidence = v.evidence ∧
      (v.uncertainty = true → (g v).uncertainty = true) := by
  intro g hg v
  have hg' : g = d2ApplyGuards ∨ g = d3ApplyGuards ∨ g = d4ApplyGuards ∨
      g = d5ApplyGuards := by
    simpa [dimensionGuards] using hg
  rcases hg' with rfl | rfl | rfl | rfl
  · rw [d2ApplyGuards_eq]; exact ⟨rfl, rfl, rfl, fun hu => by simp [hu]⟩
  · rw [d3ApplyGuards_eq]; exact ⟨rfl, rfl, rfl, fun hu => by simp [hu]⟩
  · rw [d4ApplyGuards_eq]; exact ⟨rfl, rfl, rfl, fun hu => by simp [hu]⟩
  · rw [d5ApplyGuards_eq]; exact ⟨rfl, rfl, rfl, fun hu => by simp [hu]⟩

/-- C8 witness: D5's guard on an already-uncertain verdict keeps
uncertainty true. -/
theorem guard_preserves_fields_witness :
    (d5ApplyGuards
      { rating := "SOME".data
        rationale := []
        evidence := [{ id := [], quote := [], evidence_type := "positive".data }]
        uncertainty := true }).uncertainty = true :=
  (guard_preserves_fields d5ApplyGuards (by simp [dimensionGuards]) _).2.2.2 rfl

/-- C9: every dimension agent's guard pass is idempotent. -/
theorem guard_idempotent :
    ∀ g ∈ dimensionGuards, ∀ v : AgentVerdict, g (g v) = g v := by
  intro g hg v
  have or_or : ∀ x y : Bool, (x || y) || y = x || y := fun x y => by
    cases x <;> cases y <;> rfl
  have hg' : g = d2ApplyGuards ∨ g = d3ApplyGuards ∨ g = d4ApplyGuards ∨
      g = d5ApplyGuards := by
    simpa [dimensionGuards] using hg
  rcases hg' with rfl | rfl | rfl | rfl
  · simp [d2ApplyGuards_eq, d2Esc_update, or_or]
  · simp [d3ApplyGuards_eq, d2Esc_update, or_or]
  · simp [d4ApplyGuards_eq, d4Esc_update, or_or]
  · simp [d5ApplyGuards_eq, d5Esc_update, or_or]

/-- C9 witness: D4's guard applied twice to a concrete GOOD verdict with
an unsupported rating equals one application. -/
theorem guard_idempotent_witness :
    d4ApplyGuards (d4ApplyGuards
      { rating := "GOOD".data
        rationale := []
        evidence := [{ id := [], quote := [], evidence_type := "negative".data }]
        uncertainty := false }) =
    d4ApplyGuards
      { rating := "GOOD".data
        rationale := []
        evidence := [{ id := [], quote := [], evidence_type := "negative".data }]
        uncertainty := false } :=
  guard_idempotent d4ApplyGuards (by simp [dimensionGuards]) _

/-- C6: in D4's guard pass, a "negative" evidence item whose lower-cased
quote contains neither a blame cue nor a person/role token escalates
uncertainty; and when the verdict is otherwise clean (rating-consistency
checks pass, uncertainty initially false) and every negative item
carries a blame cue or a person token, no escalation happens at all. -/
theorem d4_negative_item_guard (v : AgentVerdict) :
    ((∃ e ∈ v.evidence, e.evidence_type = "negative".data ∧
        hasCue BLAME_CUES (pyLower e.quote) = false ∧
        hasCue PERSON_TOKENS (pyLower e.quote) = false) →
      (d4ApplyGuards v).uncertainty = true) ∧
    (v.uncertainty = false → v.evidence ≠ [] →
      ¬(v.rating = "GOOD".data ∧ hasPosItem v.evidence = false) →
      ¬(v.rating = "LITTLE".data ∧ hasNegItem v.evidence = false) →
      (∀ e ∈ v.evidence, e.evidence_type = "negative".data →
        hasCue BLAME_CUES (pyLower e.quote) = true ∨
        hasCue PERSON_TOKENS (pyLower e.quote) = true) →
      (d4ApplyGuards v).uncertainty = false) := by
  constructor
  · rintro ⟨e, he, htype, hcue, hperson⟩
    have hbad : v.evidence.any d4NegUnsupported = true := by
      rw [List.any_eq_true]
      exact ⟨e, he, by simp [d4NegUnsupported, htype, hcue, hperson]⟩
    have hne : v.evidence.isEmpty = false := by
      cases hev : v.evidence with
      | nil => rw [hev] at he; cases he
      | cons a as => rfl
    rw [d4ApplyGuards_eq]
    simp [d4Esc, hne, hbad]
  · intro hu hne hgood hlittle hitems
    have hne' : v.evidence.isEmpty = false := by
      cases hev : v.evidence with
      | nil => exact absurd hev hne
      | cons a as => rfl
    have hbad : v.evidence.any d4NegUnsupported = false := by
      rw [List.any_eq_false]
      intro e he
      simp only [Bool.not_eq_true]
      by_cases htype : e.evidence_type = "negative".data
      · rcases hitems e he htype with hc | hp
        · simp [d4NegUnsupported, hc]
        · simp [d4NegUnsupported, hp]
      · simp [d4NegUnsupported, htype]
    have hA : (decide (v.rating = "GOOD".data) && !hasPosItem v.evidence) = false := by
      by_cases hr : v.rating = "GOOD".data
      · have : hasPosItem v.evidence = true := by
          cases hpv : hasPosItem v.evidence with
          | false => exact absurd ⟨hr, hpv⟩ hgood
          | true => rfl
        simp [this]
      · simp [hr]
    have hB : (decide (v.rating = "LITTLE".data) && !hasNegItem v.evidence) = false := by
      by_cases hr : v.rating = "LITTLE".data
      · have : hasNegItem v.evidence = true := by
          cases hnv : hasNegItem v.evidence with
          | false => exact absurd ⟨hr, hnv⟩ hlittle
          | true => rfl
        simp [this]
      · simp [hr]
    rw [d4ApplyGuards_eq]
    simp [d4Esc, hne', hbad, hA, hB, hu]

/-- C6 witness: a system-phrased negative item escalates, a
person-attributing one does not. -/
theorem d4_negative_item_guard_witness :
    (d4ApplyGuards
      { rating := "LITTLE".data
        rationale := []
        evidence := [{ id := "Text p01_c01".data
                       quote := "no standard escalation process existed".data
                       evidence_type := "negative".data }]
        uncertainty := false }).uncertainty = true ∧
    (d4ApplyGuards
      { rating := "SOME".data
        rationale := []
        evidence := [{ id := "Text p01_c01".data
                       quote := "staff did follow the process".data
                       evidence_type := "negative".data }]
        uncertainty := false }).uncertainty = false :=
  ⟨(d4_negative_item_guard _).1
      ⟨{ id := "Text p01_c01".data
         quote := "no standard escalation process existed".data
         evidence_type := "negative".data }, by decide, by decide, by decide, by decide⟩,
   (d4_negative_item_guard _).2 rfl (by decide) (by decide) (by decide) (by decide)⟩

/-- C7 (amended): in D5's guard pass a "negative" item citing a
counterfactual cue escalates uncertainty; a negative item whose quote
contains hindsight-judgement language and no counterfactual cue escapes
the polarity check, but the guard's final per-item check still escalates
unless the quote also contains a local-rationality cue — so such an item
causes no escalation only when a local-rationality cue is present. -/
theorem d5_negative_item_guard (v : AgentVerdict) :
    ((∃ e ∈ v.evidence, e.evidence_type = "negative".data ∧
        hasCue COUNTERFACTUAL_CUES (pyLower e.quote) = true) →
      (d5ApplyGuards v).uncertainty = true) ∧
    (v.uncertainty = false → v.evidence ≠ [] →
      ¬(v.rating = "GOOD".data ∧ hasPosItem v.evidence = false) →
      ¬(v.rating = "LITTLE".data ∧ hasNegItem v.evidence = false) →
      (∀ e ∈ v.evidence, e.evidence_type = "negative".data ∧
        hasCue COUNTERFACTUAL_CUES (pyLower e.quote) = false ∧
        hasCue HINDSIGHT_CUES (pyLower e.quote) = true ∧
        hasCue LOCAL_RATIONALE_CUES (pyLower e.quote) = true) →
      (d5ApplyGuards v).uncertainty = false) := by
  constructor
  · rintro ⟨e, he, htype, hcf⟩
    have hbad : v.evidence.any d5ItemEscalates = true := by
      rw [List.any_eq_true]
      exact ⟨e, he, by simp [d5ItemEscalates, htype, hcf]⟩
    have hne : v.evidence.isEmpty = false := by
      cases hev : v.evidence with
      | nil => rw [hev] at he; cases he
      | cons a as => rfl
    rw [d5ApplyGuards_eq]
    simp [d5Esc, hne, hbad]
  · intro hu hne hgood hlittle hitems
    have hne' : v.evidence.isEmpty = false := by
      cases hev : v.evidence with
      | nil => exact absurd hev hne
      | cons a as => rfl
    have hbad : v.evidence.any d5ItemEscalates = false := by
      rw [List.any_eq_false]
      intro e he
      simp only [Bool.not_eq_true]
      rcases hitems e he with ⟨htype, hcf, hhind, hlocal⟩
      have hnotpos : ¬ e.evidence_type = "positive".data := by
        rw [htype]; decide
      simp [d5ItemEscalates, htype, hcf, hhind, hlocal, hnotpos]
    have hA : (decide (v.rating = "GOOD".data) && !hasPosItem v.evidence) = false := by
      by_cases hr : v.rating = "GOOD".data
      · have : hasPosItem v.evidence = true := by
          cases hpv : hasPosItem v.evidence with
          | false => exact absurd ⟨hr, hpv⟩ hgood
          | true => rfl
        simp [this]
      · simp [hr]
    have hB : (decide (v.rating = "LITTLE".data) && !hasNegItem v.evidence) = false := by
      by_cases hr : v.rating = "LITTLE".data
      · have : hasNegItem v.evidence = true := by
          cases hnv : hasNegItem v.evidence with
          | false => exact absurd ⟨hr, hnv⟩ hlittle
          | true => rfl
        simp [this]
      · simp [hr]
    rw [d5ApplyGuards_eq]
    simp [d5Esc, hne', hbad, hA, hB, hu]

/-- C7 witness: a counterfactual-phrased negative item escalates; a
hindsight-phrased negative item with a local-rationality cue does not. -/
theorem d5_negative_item_guard_witness :
    (d5ApplyGuards
      { rating := "LITTLE".data
        rationale := []
        evidence := [{ id := "Text p01_c01".data
                       quote := "no certainty that an earlier scan would alter the outcome".data
                       evidence_type := "negative".data }]
        uncertainty := false }).uncertainty = true ∧
    (d5ApplyGuards
      { rating := "LITTLE".data
        rationale := []
        evidence := [{ id := "Text p01_c01".data
                       quote := "should have escalated given the workload at the time".data
                       evidence_type := "negative".data }]
        uncertainty := false }).uncertainty = false :=
  ⟨(d5_negative_item_guard _).1
      ⟨{ id := "Text p01_c01".data
         quote := "no certainty that an earlier scan would alter the outcome".data
         evidence_type := "negative".data }, by decide, by decide, by decide⟩,
   (d5_negative_item_guard _).2 rfl (by decide) (by decide) (by decide) (by decide)⟩

/-- C7 counterexample: a negative item whose quote contains
hindsight-judgement language ("should have") and no counterfactual cue
nevertheless escalates uncertainty on its own (initial uncertainty
false, rating-consistency checks satisfied) — refuting "does not by
itself escalate uncertainty". -/
theorem d5_hindsight_negative_cex :
    hasCue HINDSIGHT_CUES (pyLower "staff should have escalated sooner".data) = true ∧
    hasCue COUNTERFACTUAL_CUES (pyLower "staff should have escalated sooner".data) = false ∧
    (d5ApplyGuards
      { rating := "LITTLE".data
        rationale := []
        evidence := [{ id := "Text p01_c01".data
                       quote := "staff should have escalated sooner".data
                       evidence_type := "negative".data }]
        uncertainty := false }).uncertainty = true :=
  ⟨by decide, by decide, by decide⟩

/-! ### Meta-evaluator guard lemmas -/

theorem mById_metric_id {ms : List MetricEntry} {mid : List Char} {e : MetricEntry}
    (h : mById ms mid = some e) : e.metric_id = mid := by
  have hx : e ∈ (ms.filter (fun m => decide (m.metric_id = mid))).getLast? := h
  have hmem : e ∈ ms.filter (fun m => decide (m.metric_id = mid)) := by
    rcases List.mem_getLast?_eq_getLast hx with ⟨hne, heq⟩
    rw [heq]
    exact List.getLast_mem hne
  exact of_decide_eq_true (List.mem_filter.mp hmem).2

theorem guardEntry_metric_id (f : Flags) (mid : List Char) (e : MetricEntry) :
    (guardEntry f mid e).metric_id = e.metric_id := by
  simp only [guardEntry]
  split_ifs <;> rfl

theorem mapM_guard_ids (f : Flags) (ms : List MetricEntry) :
    ∀ (ids : List (List Char)) (entries : List MetricEntry),
      ids.mapM (fun mid => mById ms mid) = some entries →
      ((ids.zip entries).map (fun p => guardEntry f p.1 p.2)).map MetricEntry.metric_id
        = ids := by
  intro ids
  induction ids with
  | nil =>
    intro entries h
    simp only [List.mapM_nil] at h
    cases h
    rfl
  | cons i rest ih =>
    intro entries h
    rw [List.mapM_cons] at h
    cases hid : mById ms i with
    | none => rw [hid] at h; simp at h
    | some e =>
      rw [hid] at h
      cases hr : rest.mapM (fun mid => mById ms mid) with
      | none => rw [hr] at h; simp at h
      | some es =>
        rw [hr] at h
        simp only [Option.bind_some, Option.pure_def, Option.some.injEq] at h
        cases h
        simp only [List.zip_cons_cons, List.map_cons, guardEntry_metric_id,
          mById_metric_id hid]
        rw [ih es hr]

theorem mapM_none_of_missing (ms : List MetricEntry) :
    ∀ ids : List (List Char), (∃ mid ∈ ids, mById ms mid = none) →
      ids.mapM (fun mid => mById ms mid) = none := by
  intro ids
  induction ids with
  | nil => rintro ⟨mid, hmem, -⟩; cases hmem
  | cons i rest ih =>
    rintro ⟨mid, hmem, hnone⟩
    rw [List.mapM_cons]
    rcases List.mem_cons.mp hmem with rfl | htail
    · rw [hnone]; rfl
    · cases hid : mById ms i with
      | none => rfl
      | some e => rw [ih ⟨mid, htail, hnone⟩]; rfl

/-- C4: whenever `invalid_evidence_id` or `quote_mismatch` is set, the
guarded overall score is never "PASS" — a raw "PASS" is capped to "WARN"
(and a missing required metric aborts with no verdict at all). -/
theorem severe_flags_cap_overall (res : ParsedResponse) (f : Flags)
    (hf : f.invalid_evidence_id = true ∨ f.quote_mismatch = true) :
    (metaApplyGuards res f).map GuardedResponse.overall ≠ some (some "PASS".data) := by
  have hsev : severeFlags f = true := by
    rcases hf with h | h <;> simp [severeFlags, h]
  unfold metaApplyGuards
  cases hm : requiredIds.mapM (fun mid => mById res.metrics mid) with
  | none => simp
  | some entries =>
    by_cases ho : res.overall = some "PASS".data
    · simp only [hsev, ho, Option.map_some]
      simp
    · simp only [hsev, ho, Option.map_some]
      simp [ho]

/-- C4 witness: quote_mismatch set, raw overall PASS, six PASS metrics. -/
theorem severe_flags_cap_overall_witness :
    (metaApplyGuards ⟨some "PASS".data,
      [⟨"M1".data, "PASS".data, []⟩, ⟨"M2".data, "PASS".data, []⟩,
       ⟨"M3".data, "PASS".data, []⟩, ⟨"M4".data, "PASS".data, []⟩,
       ⟨"M5".data, "PASS".data, []⟩, ⟨"M6".data, "PASS".data, []⟩]⟩
      ⟨false, false, true⟩).isSome = true ∧
    (metaApplyGuards ⟨some "PASS".data,
      [⟨"M1".data, "PASS".data, []⟩, ⟨"M2".data, "PASS".data, []⟩,
       ⟨"M3".data, "PASS".data, []⟩, ⟨"M4".data, "PASS".data, []⟩,
       ⟨"M5".data, "PASS".data, []⟩, ⟨"M6".data, "PASS".data, []⟩]⟩
      ⟨false, false, true⟩).map GuardedResponse.overall ≠ some (some "PASS".data) :=
  ⟨by decide, severe_flags_cap_overall _ _ (Or.inr rfl)⟩

/-- C5: a guarded MetaVerdict's metric list carries exactly the required
ids M1..M6 in that fixed order, whatever extra or reordered metrics the
raw response contained; and when a required id is absent from the parsed
response the guard pass hard-fails (returns no verdict) instead of
backfilling. -/
theorem meta_metrics_fixed_order (res : ParsedResponse) (f : Flags) :
    (∀ out, metaApplyGuards res f = some out →
      out.metrics.map MetricEntry.metric_id = requiredIds) ∧
    ((∃ mid ∈ requiredIds, mById res.metrics mid = none) →
      metaApplyGuards res f = none) := by
  constructor
  · intro out hout
    unfold metaApplyGuards at hout
    cases hm : requiredIds.mapM (fun mid => mById res.metrics mid) with
    | none => rw [hm] at hout; cases hout
    | some entries =>
      rw [hm] at hout
      simp only [Option.some.injEq] at hout
      cases hout
      exact mapM_guard_ids f res.metrics requiredIds entries hm
  · intro hmiss
    unfold metaApplyGuards
    rw [mapM_none_of_missing res.metrics requiredIds hmiss]

/-- C5 witness: a raw response with reordered, duplicated and extra
metrics is normalised to M1..M6 in order; one missing M4 hard-fails. -/
theorem meta_metrics_fixed_order_witness :
    ({ overall := some "PASS".data,
       metrics := [⟨"M1".data, "PASS".data, []⟩, ⟨"M2".data, "PASS".data, []⟩,
         ⟨"M3".data, "PASS".data, []⟩, ⟨"M4".data, "PASS".data, []⟩,
         ⟨"M5".data, "PASS".data, []⟩, ⟨"M6".data, "PASS".data, []⟩] } :
        GuardedResponse).metrics.map MetricEntry.metric_id = requiredIds ∧
    metaApplyGuards ⟨some "PASS".data,
      [⟨"M1".data, "PASS".data, []⟩, ⟨"M2".data, "PASS".data, []⟩,
       ⟨"M3".data, "PASS".data, []⟩, ⟨"M5".data, "PASS".data, []⟩,
       ⟨"M6".data, "PASS".data, []⟩]⟩ ⟨false, false, false⟩ = none :=
  ⟨(meta_metrics_fixed_order ⟨some "PASS".data,
      [⟨"M3".data, "PASS".data, []⟩, ⟨"M1".data, "WARN".data, []⟩,
       ⟨"M2".data, "PASS".data, []⟩, ⟨"M9".data, "FAIL".data, []⟩,
       ⟨"M4".data, "PASS".data, []⟩, ⟨"M5".data, "PASS".data, []⟩,
       ⟨"M6".data, "PASS".data, []⟩, ⟨"M1".data, "PASS".data, []⟩]⟩
      ⟨false, false, false⟩).1 _ (by decide),
   (meta_metrics_fixed_order ⟨some "PASS".data,
      [⟨"M1".data, "PASS".data, []⟩, ⟨"M2".data, "PASS".data, []⟩,
       ⟨"M3".data, "PASS".data, []⟩, ⟨"M5".data, "PASS".data, []⟩,
       ⟨"M6".data, "PASS".data, []⟩]⟩ ⟨false, false, false⟩).2
      ⟨"M4".data, by decide, by decide⟩⟩

/-! ### Evidence-context contribution (C10) -/

/-- First-occurrence deduplication relative to an already-seen set
(specification-side description for C10). -/
def dedupFirst (seen : List (List Char)) : List (List Char) → List (List Char)
  | [] => []
  | x :: xs =>
    if seenHas seen x then dedupFirst seen xs else x :: dedupFirst (x :: seen) xs

/-- Specification-side description of the context blocks (named after the
spec's words, for comparison with `buildEvidenceContext`): the stripped
ids of the cited items that resolve to a block, first citation of each id
only, each formatted with its resolved block — with no reference to
quotes or to the strict flag. -/
def contextBlocksSpec (pack : EvidencePack) (evidence : List EvidenceItem) :
    List (List Char) :=
  (dedupFirst [] ((evidence.map (fun ev => stripL ev.id)).filter
      (fun eid => (resolveBlock pack eid).isSome))).map
    (fun eid => formatBlock eid ((resolveBlock pack eid).getD []))

theorem buildFold_blocks (pack : EvidencePack) (strict : Bool) :
    ∀ (evs : List EvidenceItem) (f : Flags) (seen blocks : List (List Char)),
      (evs.foldl (buildStep pack strict) (f, seen, blocks)).2.2 =
        blocks ++ (dedupFirst seen ((evs.map (fun ev => stripL ev.id)).filter
            (fun eid => (resolveBlock pack eid).isSome))).map
          (fun eid => formatBlock eid ((resolveBlock pack eid).getD [])) := by
  intro evs
  induction evs with
  | nil => intro f seen blocks; simp [dedupFirst]
  | cons ev rest ih =>
    intro f seen blocks
    rw [List.foldl_cons]
    rcases hst : buildStep pack strict (f, seen, blocks) ev with ⟨F, S, B⟩
    rw [ih F S B]
    by_cases hemp : (stripL ev.id).isEmpty = true
    · have hnil : stripL ev.id = [] := by
        cases hs : stripL ev.id with
        | nil => rfl
        | cons a as => rw [hs] at hemp; cases hemp
      have hres : resolveBlock pack (stripL ev.id) = none := by
        rw [hnil]
        simp [resolveBlock, show stripL ([] : List Char) = [] from rfl]
      have h2 : (buildStep pack strict (f, seen, blocks) ev).2 = (seen, blocks) := by
        simp [buildStep, hemp]
      rw [hst] at h2
      injection h2 with hS hB
      subst hS; subst hB
      simp [hres]
    · cases hres : resolveBlock pack (stripL ev.id) with
      | none =>
        have h2 : (buildStep pack strict (f, seen, blocks) ev).2 = (seen, blocks) := by
          simp [buildStep, hemp, hres]
        rw [hst] at h2
        injection h2 with hS hB
        subst hS; subst hB
        simp [hres]
      | some block =>
        by_cases hseen : seenHas seen (stripL ev.id) = true
        · have h2 : (buildStep pack strict (f, seen, blocks) ev).2 = (seen, blocks) := by
            simp [buildStep, hemp, hres, hseen]
          rw [hst] at h2
          injection h2 with hS hB
          subst hS; subst hB
          simp [hres, hseen, dedupFirst]
        · have h2 : (buildStep pack strict (f, seen, blocks) ev).2 =
              (stripL ev.id :: seen, blocks ++ [formatBlock (stripL ev.id) block]) := by
            simp [buildStep, hemp, hres, hseen]
          rw [hst] at h2
          injection h2 with hS hB
          subst hS; subst hB
          simp [hres, hseen, dedupFirst]

/-- C10: every cited evidence item whose id resolves contributes its
block to the evidence context — deduplicated by id, in first-citation
order — independently of its quote and of the strict-quote-check flag
(so also when `quote_mismatch` gets set); items with an empty or
unresolvable id contribute nothing. -/
theorem context_blocks_complete (pack : EvidencePack) (evidence : List EvidenceItem)
    (strict : Bool) :
    (buildEvidenceContext pack evidence strict).2 = contextBlocksSpec pack evidence ∧
    (buildEvidenceContext pack evidence true).2 =
      (buildEvidenceContext pack evidence false).2 := by
  have main : ∀ s : Bool, (buildEvidenceContext pack evidence s).2 =
      contextBlocksSpec pack evidence := by
    intro s
    by_cases hev : evidence.isEmpty = true
    · have : evidence = [] := by
        cases hv : evidence with
        | nil => rfl
        | cons a as => rw [hv] at hev; cases hev
      simp [buildEvidenceContext, this, contextBlocksSpec, dedupFirst]
    · simp only [buildEvidenceContext, hev, if_false, ite_false]
      rw [buildFold_blocks]
      simp [contextBlocksSpec]
  exact ⟨main strict, by rw [main true, main false]⟩

end Lrrit
